import Mathlib

/-
  Verification development for the Looper sample-sequencer engine
  (src/app/page.tsx): sound-source registry, voice engine, loop
  recorder and loop player, shallowly embedded as pure state
  transformers.

  Conventions of the embedding:
  * Wall-clock time (Date.now()) and audio-context time are integers in
    milliseconds; the synth envelope constants 0.1 s / 0.05 s / 0.4 s of
    the source become 100 / 50 / 400 ms.
  * Web Audio nodes live in explicit tables owned by the state; a node
    record carries two ghost fields (padId, voiceId) recording which pad
    trigger created it.  They are bookkeeping only: no operation
    branches on them.
  * decodeAudioData is an external provider; loadSample is parametrised
    over a decode function returning Option.
  * setTimeout callbacks are modelled as a pending-timer list; the
    source discards the returned handles, so nothing ever removes a
    timer except firing it.
  * React setState updates are applied sequentially; natural
    end-of-buffer (source.onended) is an external event that is not
    modelled, so a buffer source stays live until explicitly stopped.
-/

namespace Looper

/-- OscillatorType values used by the pads. -/
inductive Waveform
  | sine
  | square
  | sawtooth
  | triangle
deriving DecidableEq, Repr

/-- The generator behind a voice: an AudioBufferSourceNode (decoded
buffer handle, loop flag, playbackRate) or an OscillatorNode. -/
inductive GenKind
  | bufferSource (buffer : Nat) (loopFlag : Bool) (playbackRate : Rat)
  | oscillator (waveform : Waveform) (frequency : Rat)
deriving DecidableEq, Repr

/-- A generator node in the audio graph.  padId and voiceId are ghost
provenance fields (which pad trigger created the node). -/
structure GenNode where
  nodeId : Nat
  padId : String
  voiceId : Nat
  kind : GenKind
  startAt : Int
  schedStopAt : Option Int
  stopped : Bool
  connected : Bool
deriving DecidableEq, Repr

/-- A GainNode: current .value plus the scheduled automation points set
by setValueAtTime / linearRampToValueAtTime. -/
structure GainNodeRec where
  nodeId : Nat
  gain : Rat
  sched : List (Int × Rat)
  connected : Bool
deriving DecidableEq, Repr

/-- Variant payload of a pad: sample (nullable decoded buffer, optional
default file) or synth (frequencies, waveform, optional arpeggio
pattern). -/
inductive PadPayload
  | sample (buffer : Option Nat) (defaultSampleFile : Option String)
  | synth (frequencies : List Rat) (waveform : Waveform) (arpeggioPattern : Option (List Rat))
deriving DecidableEq, Repr

/-- A pad of the sound source registry (interface SoundSource plus the
variant payload).  sourceNode / gainNode are the current-voice slot,
holding node ids into the tables. -/
structure Pad where
  id : String
  name : String
  key : String
  color : String
  volume : Rat
  isPolyphonic : Bool
  sourceNode : Option Nat
  gainNode : Option Nat
  isLooping : Bool
  payload : PadPayload
deriving DecidableEq, Repr

/-- One captured trigger event: pad id and offset (ms) from the
recording start. -/
structure RecordedEvent where
  sampleId : String
  time : Int
deriving DecidableEq, Repr

/-- A saved loop (interface SavedLoop). -/
structure SavedLoop where
  id : String
  name : String
  events : List RecordedEvent
  duration : Int
  createdAt : Int
deriving DecidableEq, Repr

/-- The callbacks the source hands to setTimeout.  repeatEvents carries
the loop object and the isLooping value captured by the playLoop
closure. -/
inductive TimerAction
  | firePadEvent (sampleId : String)
  | repeatEvents (loop : SavedLoop) (capturedLooping : Bool)
  | endPlayback
  | deactivatePad (sampleId : String)
deriving DecidableEq, Repr

/-- A pending setTimeout: id, absolute fire time, callback. -/
structure TimerRec where
  timerId : Nat
  fireAt : Int
  action : TimerAction
deriving DecidableEq, Repr

/-- The whole engine state of the SamplePadApp component. -/
structure AppState where
  samples : List Pad
  activePads : List String
  isRecording : Bool
  isPlaying : Bool
  isLooping : Bool
  recordedSequence : List RecordedEvent
  recordStartTime : Int
  savedLoops : List SavedLoop
  currentlyPlayingLoop : Option String
  gens : List GenNode
  gains : List GainNodeRec
  nextNodeId : Nat
  nextVoiceId : Nat
  timers : List TimerRec
  nextTimerId : Nat
  speed : Rat
  now : Int
  ctxTime : Int
deriving DecidableEq, Repr

/-- The partial-settings argument of updateSampleSettings (only the
fields the engine paths pass). -/
structure PadSettings where
  volume : Option Rat := none
  isLooping : Option Bool := none
  isPolyphonic : Option Bool := none
  sourceNode : Option (Option Nat) := none
  gainNode : Option (Option Nat) := none
deriving DecidableEq, Repr

/-- The object spread {...sample, ...settings}. -/
def mergeSettings (pad : Pad) (st : PadSettings) : Pad :=
  { pad with
    volume := st.volume.getD pad.volume
    isLooping := st.isLooping.getD pad.isLooping
    isPolyphonic := st.isPolyphonic.getD pad.isPolyphonic
    sourceNode := st.sourceNode.getD pad.sourceNode
    gainNode := st.gainNode.getD pad.gainNode }

/-- node.stop(); node.disconnect() on the generator with the given id. -/
def stopAndDisconnect (gens : List GenNode) (nid : Nat) : List GenNode :=
  gens.map (fun g => if g.nodeId == nid then { g with stopped := true, connected := false } else g)

/-- node.stop() alone (stopLoop stops without disconnecting). -/
def markStopped (gens : List GenNode) (nid : Nat) : List GenNode :=
  gens.map (fun g => if g.nodeId == nid then { g with stopped := true } else g)

/-- sourceNode.loop = b, guarded by the source's check that the node has
a loop property (only buffer sources do). -/
def setLoopFlag (gens : List GenNode) (nid : Nat) (b : Bool) : List GenNode :=
  gens.map (fun g =>
    if g.nodeId == nid then
      match g.kind with
      | GenKind.bufferSource buf _ r => { g with kind := GenKind.bufferSource buf b r }
      | GenKind.oscillator _ _ => g
    else g)

/-- gainNode.gain.value = v. -/
def setGainValue (gains : List GainNodeRec) (gid : Nat) (v : Rat) : List GainNodeRec :=
  gains.map (fun g => if g.nodeId == gid then { g with gain := v } else g)

/-- gainNode.disconnect(). -/
def disconnectGain (gains : List GainNodeRec) (gid : Nat) : List GainNodeRec :=
  gains.map (fun g => if g.nodeId == gid then { g with connected := false } else g)

/-- The direct mutation sample.sourceNode = null (or a node id). -/
def setPadSource (samples : List Pad) (sid : String) (v : Option Nat) : List Pad :=
  samples.map (fun p => if p.id == sid then { p with sourceNode := v } else p)

/-- The direct mutation sample.gainNode = null. -/
def setPadGain (samples : List Pad) (sid : String) (v : Option Nat) : List Pad :=
  samples.map (fun p => if p.id == sid then { p with gainNode := v } else p)

/-- samples.find((s) => s.id === sampleId). -/
def lookupPad (s : AppState) (sid : String) : Option Pad :=
  s.samples.find? (fun p => p.id == sid)

/-- The merge-and-live-update part of updateSampleSettings (everything
except the turn-polyphony-off branch, which calls stopSample and is
layered on top below, breaking the mutual recursion of the source). -/
def updateSampleSettingsCore (s : AppState) (sid : String) (st : PadSettings) : AppState :=
  match lookupPad s sid with
  | none => s
  | some pad =>
    let gains :=
      match st.volume, pad.gainNode with
      | some v, some gid => setGainValue s.gains gid v
      | _, _ => s.gains
    let gens :=
      match st.isLooping, pad.sourceNode with
      | some b, some nid => setLoopFlag s.gens nid b
      | _, _ => s.gens
    { s with
      gains := gains
      gens := gens
      samples := s.samples.map (fun p => if p.id == sid then mergeSettings p st else p) }

/-- The settings object stopSample passes at its end. -/
def stopSettings : PadSettings :=
  { isLooping := some false, sourceNode := some none, gainNode := some none }

/-- The first if-block of stopSample: when the found pad's slot holds a
generator, stop and disconnect it and null the slot. -/
def stopSrcStep (s : AppState) (sid : String) (pad : Pad) : AppState :=
  match pad.sourceNode with
  | some nid =>
    { s with gens := stopAndDisconnect s.gens nid, samples := setPadSource s.samples sid none }
  | none => s

/-- The second if-block of stopSample: when the found pad's slot holds
a gain node, disconnect it and null the slot. -/
def stopGainStep (s : AppState) (sid : String) (pad : Pad) : AppState :=
  match pad.gainNode with
  | some gid =>
    { s with gains := disconnectGain s.gains gid, samples := setPadGain s.samples sid none }
  | none => s

/-- stopSample: stop and disconnect the slot generator, disconnect the
slot gain node, null both slots, then push the stopped settings
(which also force isLooping to false). -/
def stopSample (s : AppState) (sid : String) : AppState :=
  match lookupPad s sid with
  | none => s
  | some pad =>
    updateSampleSettingsCore (stopGainStep (stopSrcStep s sid pad) sid pad) sid stopSettings

/-- updateSampleSettings: when polyphony is being switched off while a
voice is live, first stop the pad, then merge.  (The source interleaves
the queued React updates differently but the final state agrees.) -/
def updateSampleSettings (s : AppState) (sid : String) (st : PadSettings) : AppState :=
  match st.isPolyphonic with
  | some false =>
    match lookupPad s sid with
    | none => s
    | some pad =>
      let s1 := if pad.sourceNode.isSome then stopSample s sid else s
      updateSampleSettingsCore s1 sid st
  | _ => updateSampleSettingsCore s sid st

/-- One oscillator/gain pair of playSynth: oscillator i starts at
ctxTime + 0.1 i s, hard-stops 0.4 s later; the gain ramps 0 → volume →
0 over the envelope.  (The source creates the pairs in one map and
starts/schedules them in a second loop; no observation happens between
the two, so they are fused here.) -/
def mkOscPair (pid : String) (vid : Nat) (baseId : Nat) (ct : Int) (speed : Rat) (vol : Rat)
    (wf : Waveform) (i : Nat) (freq : Rat) : GenNode × GainNodeRec :=
  ({ nodeId := baseId + 2 * i
   , padId := pid
   , voiceId := vid
   , kind := GenKind.oscillator wf (freq * (speed / 100))
   , startAt := ct + 100 * (i : Int)
   , schedStopAt := some (ct + 100 * (i : Int) + 400)
   , stopped := false
   , connected := true },
   { nodeId := baseId + 2 * i + 1
   , gain := 1
   , sched := [(ct + 100 * (i : Int), 0), (ct + 100 * (i : Int) + 50, vol), (ct + 100 * (i : Int) + 400, 0)]
   , connected := true })

/-- playSynth: one oscillator/gain pair per frequency, returning
synthNodes[0] (the first pair) as the nominal voice handle, or
undefined when the frequency list is empty. -/
def playSynth (s : AppState) (pad : Pad) : AppState × Option (Nat × Nat) :=
  match pad.payload with
  | PadPayload.sample _ _ => (s, none)
  | PadPayload.synth freqs wf _ =>
    let pairs := freqs.enum.map (fun pr =>
      mkOscPair pad.id s.nextVoiceId s.nextNodeId s.ctxTime s.speed pad.volume wf pr.1 pr.2)
    let s1 :=
      { s with
        gens := s.gens ++ pairs.map Prod.fst
        gains := s.gains ++ pairs.map Prod.snd
        nextNodeId := s.nextNodeId + 2 * freqs.length
        nextVoiceId := s.nextVoiceId + 1 }
    (s1, pairs.head?.map (fun pr => (pr.1.nodeId, pr.2.nodeId)))

/-- playSample: undefined when the pad has no buffer; otherwise a
buffer source (loop flag and playbackRate from the pad and the global
speed) routed through a fresh gain node at the pad's volume, started at
once.  The onended natural-end callback is an unmodelled external
event. -/
def playSample (s : AppState) (pad : Pad) : AppState × Option (Nat × Nat) :=
  match pad.payload with
  | PadPayload.synth _ _ _ => (s, none)
  | PadPayload.sample ob _ =>
    match ob with
    | none => (s, none)
    | some buf =>
      let src : GenNode :=
        { nodeId := s.nextNodeId
        , padId := pad.id
        , voiceId := s.nextVoiceId
        , kind := GenKind.bufferSource buf pad.isLooping (s.speed / 100)
        , startAt := s.ctxTime
        , schedStopAt := none
        , stopped := false
        , connected := true }
      let gn : GainNodeRec :=
        { nodeId := s.nextNodeId + 1, gain := pad.volume, sched := [], connected := true }
      ({ s with
          gens := s.gens ++ [src]
          gains := s.gains ++ [gn]
          nextNodeId := s.nextNodeId + 2
          nextVoiceId := s.nextVoiceId + 1 }, some (src.nodeId, gn.nodeId))

/-- The Set add of setActivePads. -/
def addActive (l : List String) (sid : String) : List String :=
  if l.contains sid then l else l ++ [sid]

/-- Register a setTimeout callback. -/
def addTimer (s : AppState) (fireAt : Int) (a : TimerAction) : AppState :=
  { s with timers := s.timers ++ [⟨s.nextTimerId, fireAt, a⟩], nextTimerId := s.nextTimerId + 1 }

/-- The visual-feedback part of playSoundSource: mark the pad active
and schedule the 150 ms removal timer. -/
def triggerFeedbackStep (s : AppState) (pad : Pad) : AppState :=
  addTimer { s with activePads := addActive s.activePads pad.id } (s.now + 150)
    (TimerAction.deactivatePad pad.id)

/-- The recording part of playSoundSource: while Recording, append
{padId, offset = now - origin} to the buffer.  This happens on every
trigger call, before any voice is created. -/
def recordStep (s : AppState) (pad : Pad) : AppState :=
  if s.isRecording then
    { s with recordedSequence := s.recordedSequence ++ [⟨pad.id, s.now - s.recordStartTime⟩] }
  else s

/-- The polyphony part of playSoundSource: a non-polyphonic pad stops
its previous voice before the new one starts. -/
def cutoffStep (s : AppState) (pad : Pad) : AppState :=
  if pad.isPolyphonic then s else stopSample s pad.id

/-- The variant dispatch of playSoundSource: create the voice and, when
one was produced, store its handle pair in the pad's slot. -/
def playVariantStep (s : AppState) (pad : Pad) : AppState :=
  match pad.payload with
  | PadPayload.synth _ _ _ =>
    let r := playSynth s pad
    match r.2 with
    | some pr =>
      updateSampleSettings r.1 pad.id { sourceNode := some (some pr.1), gainNode := some (some pr.2) }
    | none => r.1
  | PadPayload.sample _ _ =>
    let r := playSample s pad
    match r.2 with
    | some pr =>
      updateSampleSettings r.1 pad.id { sourceNode := some (some pr.1), gainNode := some (some pr.2) }
    | none => r.1

/-- playSoundSource: visual active flag (plus its 150 ms removal
timer), the recording append, the non-polyphonic cut-off, then the
variant dispatch and the slot update.  The pad object is read once at
entry, as in the source, where the closure keeps using the argument. -/
def playSoundSource (s : AppState) (sid : String) : AppState :=
  match lookupPad s sid with
  | none => s
  | some pad =>
    playVariantStep (cutoffStep (recordStep (triggerFeedbackStep s pad) pad) pad) pad

/-- startRecording: origin := now, clear the buffer, enter Recording. -/
def startRecording (s : AppState) : AppState :=
  { s with isRecording := true, recordStartTime := s.now, recordedSequence := [] }

/-- Outcome reported by stopRecording. -/
inductive RecOutcome
  | emptyRecording
  | saved (count : Nat)
deriving DecidableEq, Repr

/-- stopRecording: leave Recording; empty buffer reports the empty
outcome and saves nothing, otherwise a loop with duration
lastEvent.time + 1000 is appended. -/
def stopRecording (s : AppState) : AppState × RecOutcome :=
  let s1 := { s with isRecording := false }
  match s1.recordedSequence.getLast? with
  | none => (s1, RecOutcome.emptyRecording)
  | some lastEvent =>
    let loopDuration := lastEvent.time + 1000
    let newLoop : SavedLoop :=
      { id := "loop-" ++ toString s1.now
      , name := "Loop " ++ toString (s1.savedLoops.length + 1)
      , events := s1.recordedSequence
      , duration := loopDuration
      , createdAt := s1.now }
    ({ s1 with savedLoops := s1.savedLoops ++ [newLoop] },
     RecOutcome.saved s1.recordedSequence.length)

/-- Outcome of loadSample. -/
inductive LoadOutcome
  | success
  | decodeError
deriving DecidableEq, Repr

/-- The regex replace(/\.[^/.]+$/, ""): length of the matched extension
suffix of the reversed character list, if any. -/
def extSpan : List Char → Nat → Option Nat
  | [], _ => none
  | c :: rest, n =>
    if c = '.' then (if n = 0 then none else some (n + 1))
    else if c = '/' then none
    else extSpan rest (n + 1)

/-- file.name with its final dot-extension removed. -/
def stripExt (name : String) : String :=
  match extSpan name.data.reverse 0 with
  | none => name
  | some k => String.mk (name.data.take (name.data.length - k))

/-- loadSample: decode the bytes (external provider, here a parameter);
on failure the catch block only notifies, leaving the state untouched;
on success the matching sample-variant pad gets the new buffer and the
file name (extension stripped) as display name. -/
def loadSample (decode : List Nat → Option Nat) (s : AppState) (fileName : String)
    (fileBytes : List Nat) (sid : String) : AppState × LoadOutcome :=
  match decode fileBytes with
  | none => (s, LoadOutcome.decodeError)
  | some buf =>
    ({ s with samples := s.samples.map (fun p =>
        if p.id == sid then
          match p.payload with
          | PadPayload.sample _ df =>
            { p with payload := PadPayload.sample (some buf) df, name := stripExt fileName }
          | PadPayload.synth _ _ _ => p
        else p) },
     LoadOutcome.success)

/-- playLoopEvents: schedule one trigger timer per event at its offset,
then either the recursive repeat or the single end-of-playback timer,
according to the isLooping value captured by the closure. -/
def playLoopEvents (s : AppState) (loop : SavedLoop) (capturedLooping : Bool) : AppState :=
  let s1 := loop.events.foldl
    (fun st ev => addTimer st (st.now + ev.time) (TimerAction.firePadEvent ev.sampleId)) s
  if capturedLooping then
    addTimer s1 (s1.now + loop.duration) (TimerAction.repeatEvents loop capturedLooping)
  else
    addTimer s1 (s1.now + loop.duration) TimerAction.endPlayback

/-- playLoop: no-op on an unknown id; otherwise enter Playing, mark the
loop current and run playLoopEvents (capturing the current repeat
flag).  The setTimeout handles are discarded, as in the source. -/
def playLoop (s : AppState) (loopId : String) : AppState :=
  match s.savedLoops.find? (fun l => l.id == loopId) with
  | none => s
  | some loop =>
    let s1 := { s with isPlaying := true, currentlyPlayingLoop := some loopId }
    playLoopEvents s1 loop s1.isLooping

/-- The per-event body of stopLoop: look the pad up by the event's id
and, if its slot holds a generator, stop it (no disconnect) and null
the slot. -/
def stopLoopEventSample (s : AppState) (sid : String) : AppState :=
  match lookupPad s sid with
  | none => s
  | some pad =>
    match pad.sourceNode with
    | some nid =>
      { s with gens := markStopped s.gens nid, samples := setPadSource s.samples sid none }
    | none => s

/-- stopLoop: stop the slot generator of every pad referenced by the
current loop's events, clear the current-loop marker, leave Playing and
clear the repeat flag.  Pending timers are not touched: the source
never kept their handles. -/
def stopLoop (s : AppState) : AppState :=
  match s.currentlyPlayingLoop with
  | none => s
  | some cid =>
    let s1 :=
      match s.savedLoops.find? (fun l => l.id == cid) with
      | none => s
      | some loop => loop.events.foldl (fun st (ev : RecordedEvent) => stopLoopEventSample st ev.sampleId) s
    { s1 with currentlyPlayingLoop := none, isPlaying := false, isLooping := false }

/-- Run one fired setTimeout callback. -/
def runTimerAction (s : AppState) (a : TimerAction) : AppState :=
  match a with
  | TimerAction.firePadEvent sid => playSoundSource s sid
  | TimerAction.repeatEvents loop cap => playLoopEvents s loop cap
  | TimerAction.endPlayback => { s with isPlaying := false, currentlyPlayingLoop := none }
  | TimerAction.deactivatePad sid => { s with activePads := s.activePads.erase sid }

/-- A trigger trace: set the wall clock to each call's instant and run
playSoundSource on its pad. -/
def runTriggers (s : AppState) (calls : List (Int × String)) : AppState :=
  calls.foldl (fun st c => playSoundSource { st with now := c.1 } c.2) s

/-- A generator is audible at context time t: started, not explicitly
stopped, and before its scheduled hard stop. -/
def GenNode.liveAt (g : GenNode) (t : Int) : Bool :=
  !g.stopped && decide (g.startAt ≤ t) && (match g.schedStopAt with
    | none => true
    | some e => decide (t < e))

/-- The distinct voices of a pad with at least one audible generator at
time t (a voice is the whole generator group of one trigger). -/
def liveVoiceIds (s : AppState) (sid : String) (t : Int) : List Nat :=
  ((s.gens.filter (fun g => g.padId == sid && g.liveAt t)).map (fun g => g.voiceId)).dedup

/-- Whether a pending timer is a scheduled loop-event trigger. -/
def TimerRec.isEventTrigger (t : TimerRec) : Bool :=
  match t.action with
  | TimerAction.firePadEvent _ => true
  | _ => false

/-! ### Concrete test fixtures -/

/-- An engine state with nothing loaded, recorded or playing. -/
def baseState : AppState :=
  { samples := [], activePads := [], isRecording := false, isPlaying := false,
    isLooping := false, recordedSequence := [], recordStartTime := 0, savedLoops := [],
    currentlyPlayingLoop := none, gens := [], gains := [], nextNodeId := 0, nextVoiceId := 0,
    timers := [], nextTimerId := 0, speed := 100, now := 0, ctxTime := 0 }

/-- A two-note synth pad, non-polyphonic, loop flag on (as the arpeggio
row pads are initialised). -/
def synthPadA : Pad :=
  { id := "a0", name := "Bdim", key := "z", color := "bg-violet-500", volume := 1,
    isPolyphonic := false, sourceNode := none, gainNode := none, isLooping := true,
    payload := PadPayload.synth [240, 300] Waveform.sine none }

def arpPadId : String := "a0"

def stateA : AppState := { baseState with samples := [synthPadA] }

/-- A loaded, non-polyphonic sample pad. -/
def samplePadB : Pad :=
  { id := "b0", name := "Kick", key := "1", color := "bg-red-500", volume := 1,
    isPolyphonic := false, sourceNode := none, gainNode := none, isLooping := false,
    payload := PadPayload.sample (some 7) none }

def kickPadId : String := "b0"

def stateB : AppState := { baseState with samples := [samplePadB] }

/-- A one-event saved loop over the sample pad. -/
def loopL : SavedLoop :=
  { id := "L", name := "Loop 1", events := [⟨"b0", 500⟩], duration := 1500, createdAt := 0 }

def loopLId : String := "L"

def stateC : AppState :=
  { baseState with samples := [samplePadB], savedLoops := [loopL], now := 10000 }

/-- A sample pad with no buffer loaded (an empty pad). -/
def emptyPadC : Pad := { samplePadB with id := "c0", payload := PadPayload.sample none none }

def emptyPadId : String := "c0"

/-- A state that is recording, holding only the empty pad. -/
def stateD : AppState :=
  { baseState with samples := [emptyPadC], isRecording := true, recordStartTime := 100, now := 350 }

/-- A state holding a finished two-event recording buffer. -/
def stateE : AppState :=
  { baseState with recordedSequence := [⟨"b0", 5⟩, ⟨"b0", 40⟩] }

/-- A decode provider accepting exactly one byte string. -/
def decodeW : List Nat → Option Nat := fun bs => if bs = [1, 2, 3] then some 9 else none

/-- The state after playing loop L from stateC and stopping it at once. -/
def c1AfterStop : AppState := stopLoop (playLoop stateC loopLId)

/-- Firing the first still-pending scheduled event trigger of
c1AfterStop at its due time. -/
def c1Fire : AppState :=
  match c1AfterStop.timers.find? TimerRec.isEventTrigger with
  | some t => runTimerAction { c1AfterStop with now := t.fireAt } t.action
  | none => c1AfterStop

/-! ### Helper lemmas -/

/-- The engine-state fields untouched by stopSample, the settings
update and the two voice-creation functions, as one tuple. -/
def frame (s : AppState) :=
  (s.activePads, s.isRecording, s.isPlaying, s.isLooping, s.recordedSequence,
   s.recordStartTime, s.savedLoops, s.currentlyPlayingLoop, s.timers, s.nextTimerId,
   s.speed, s.now, s.ctxTime)

theorem updateSampleSettingsCore_frame (s : AppState) (sid : String) (st : PadSettings) :
    frame (updateSampleSettingsCore s sid st) = frame s := by
  unfold updateSampleSettingsCore
  split <;> rfl

theorem stopSrcStep_frame (s : AppState) (sid : String) (pad : Pad) :
    frame (stopSrcStep s sid pad) = frame s := by
  unfold stopSrcStep
  cases pad.sourceNode <;> rfl

theorem stopGainStep_frame (s : AppState) (sid : String) (pad : Pad) :
    frame (stopGainStep s sid pad) = frame s := by
  unfold stopGainStep
  cases pad.gainNode <;> rfl

theorem stopSample_frame (s : AppState) (sid : String) :
    frame (stopSample s sid) = frame s := by
  cases hl : lookupPad s sid with
  | none => simp only [stopSample, hl]
  | some pad =>
    simp only [stopSample, hl]
    exact ((updateSampleSettingsCore_frame _ _ _).trans
      (stopGainStep_frame _ _ _)).trans (stopSrcStep_frame _ _ _)

theorem updateSampleSettings_frame (s : AppState) (sid : String) (st : PadSettings) :
    frame (updateSampleSettings s sid st) = frame s := by
  cases hp : st.isPolyphonic with
  | none =>
    simp only [updateSampleSettings, hp]
    exact updateSampleSettingsCore_frame _ _ _
  | some b =>
    cases b
    · cases hl : lookupPad s sid with
      | none => simp only [updateSampleSettings, hp, hl]
      | some pad =>
        simp only [updateSampleSettings, hp, hl]
        cases hs : pad.sourceNode
        · exact updateSampleSettingsCore_frame _ _ _
        · exact (updateSampleSettingsCore_frame _ _ _).trans (stopSample_frame _ _)
    · simp only [updateSampleSettings, hp]
      exact updateSampleSettingsCore_frame _ _ _

theorem playSynth_frame (s : AppState) (pad : Pad) :
    frame (playSynth s pad).1 = frame s := by
  unfold playSynth
  cases pad.payload <;> rfl

theorem playSample_frame (s : AppState) (pad : Pad) :
    frame (playSample s pad).1 = frame s := by
  unfold playSample
  cases hp : pad.payload with
  | synth _ _ _ => rfl
  | sample ob df => cases ob <;> rfl

theorem frame_isRecording {s t : AppState} (h : frame s = frame t) :
    s.isRecording = t.isRecording :=
  congrArg (fun x => x.2.1) h

theorem frame_recordedSequence {s t : AppState} (h : frame s = frame t) :
    s.recordedSequence = t.recordedSequence :=
  congrArg (fun x => x.2.2.2.2.1) h

theorem frame_recordStartTime {s t : AppState} (h : frame s = frame t) :
    s.recordStartTime = t.recordStartTime :=
  congrArg (fun x => x.2.2.2.2.2.1) h

theorem frame_ctxTime {s t : AppState} (h : frame s = frame t) :
    s.ctxTime = t.ctxTime :=
  congrArg (fun x => x.2.2.2.2.2.2.2.2.2.2.2.2) h

theorem frame_speed {s t : AppState} (h : frame s = frame t) :
    s.speed = t.speed :=
  congrArg (fun x => x.2.2.2.2.2.2.2.2.2.2.1) h

theorem updateSampleSettingsCore_nextIds (s : AppState) (sid : String) (st : PadSettings) :
    (updateSampleSettingsCore s sid st).nextNodeId = s.nextNodeId ∧
    (updateSampleSettingsCore s sid st).nextVoiceId = s.nextVoiceId := by
  unfold updateSampleSettingsCore
  split <;> exact ⟨rfl, rfl⟩

theorem stopSample_nextIds (s : AppState) (sid : String) :
    (stopSample s sid).nextNodeId = s.nextNodeId ∧
    (stopSample s sid).nextVoiceId = s.nextVoiceId := by
  cases hl : lookupPad s sid with
  | none => simp [stopSample, hl]
  | some pad =>
    simp only [stopSample, hl]
    cases hsrc : pad.sourceNode <;> cases hgain : pad.gainNode <;>
      simp only [stopSrcStep, stopGainStep, hsrc, hgain] <;>
      exact updateSampleSettingsCore_nextIds _ _ _

theorem find?_map_update (l : List Pad) (sid : String) (f : Pad → Pad)
    (hf : ∀ p, (f p).id = p.id) :
    (l.map (fun p => if p.id == sid then f p else p)).find? (fun p => p.id == sid)
      = (l.find? (fun p => p.id == sid)).map f := by
  induction l with
  | nil => rfl
  | cons a t ih =>
    cases h : (a.id == sid) with
    | true =>
      have hfa : ((f a).id == sid) = true := by rw [hf]; exact h
      simp only [List.map_cons, if_pos h, if_true, List.find?_cons, hfa, h, Option.map_some']
    | false =>
      have hfa : ((f a).id == sid) = false := by rw [hf]; exact h
      simp only [List.map_cons, h, Bool.false_eq_true, if_false, List.find?_cons, hfa, ih]

theorem map_update_eq_self (l : List Pad) (sid : String) (f : Pad → Pad)
    (h : ∀ p ∈ l, (p.id == sid) = true → f p = p) :
    l.map (fun p => if p.id == sid then f p else p) = l := by
  induction l with
  | nil => rfl
  | cons a t ih =>
    simp only [List.map_cons]
    congr 1
    · by_cases hh : (a.id == sid) = true
      · rw [if_pos hh, h a (List.mem_cons_self a t) hh]
      · rw [if_neg hh]
    · exact ih (fun p hp hid => h p (List.mem_cons_of_mem a hp) hid)

theorem mem_map_update (l : List Pad) (sid : String) (f : Pad → Pad) (p : Pad)
    (hp : p ∈ l.map (fun q => if q.id == sid then f q else q))
    (hid : (p.id == sid) = true) :
    ∃ q ∈ l, (q.id == sid) = true ∧ p = f q := by
  obtain ⟨q, hq, hpq⟩ := List.mem_map.mp hp
  by_cases h : (q.id == sid) = true
  · exact ⟨q, hq, h, by rw [← hpq, if_pos h]⟩
  · exfalso
    rw [if_neg h] at hpq
    rw [hpq] at h
    exact h hid

theorem mergeSettings_id (p : Pad) (st : PadSettings) : (mergeSettings p st).id = p.id := rfl

theorem merge_stop_of_cleared (p : Pad) (h1 : p.sourceNode = none) (h2 : p.gainNode = none)
    (h3 : p.isLooping = false) : mergeSettings p stopSettings = p := by
  cases p
  simp_all [mergeSettings, stopSettings]

theorem pad_clear_eta (p : Pad) (h1 : p.sourceNode = none) (h2 : p.gainNode = none) :
    ({ p with sourceNode := none, gainNode := none } : Pad) = p := by
  cases p
  simp_all

theorem pad_clear_eta_src (p : Pad) (h : p.sourceNode = none) :
    ({ p with sourceNode := none, gainNode := none } : Pad) = { p with gainNode := none } := by
  cases p
  simp_all

theorem pad_clear_eta_gain (p : Pad) (h : p.gainNode = none) :
    ({ p with sourceNode := none, gainNode := none } : Pad) = { p with sourceNode := none } := by
  cases p
  simp_all

theorem updateSampleSettingsCore_samples (s : AppState) (sid : String) (st : PadSettings)
    (pad : Pad) (hl : lookupPad s sid = some pad) :
    (updateSampleSettingsCore s sid st).samples
      = s.samples.map (fun p => if p.id == sid then mergeSettings p st else p) := by
  simp only [updateSampleSettingsCore, hl]

theorem lookupPad_core (s : AppState) (sid : String) (st : PadSettings) (pad : Pad)
    (hl : lookupPad s sid = some pad) :
    lookupPad (updateSampleSettingsCore s sid st) sid = some (mergeSettings pad st) := by
  have hfind : s.samples.find? (fun p => p.id == sid) = some pad := hl
  show (updateSampleSettingsCore s sid st).samples.find? (fun p => p.id == sid) = _
  rw [updateSampleSettingsCore_samples s sid st pad hl,
    find?_map_update s.samples sid (fun p => mergeSettings p st) (fun p => rfl), hfind]
  rfl

theorem updateSampleSettingsCore_gens_stop (s : AppState) (sid : String) (pad : Pad)
    (hl : lookupPad s sid = some pad) (hsrc : pad.sourceNode = none) :
    (updateSampleSettingsCore s sid stopSettings).gens = s.gens := by
  simp only [updateSampleSettingsCore, hl, hsrc, stopSettings]

theorem stopSteps_lookup (s : AppState) (sid : String) (pad : Pad)
    (hl : lookupPad s sid = some pad) :
    lookupPad (stopGainStep (stopSrcStep s sid pad) sid pad) sid
      = some ({ pad with sourceNode := none, gainNode := none } : Pad) := by
  have hfind : s.samples.find? (fun p => p.id == sid) = some pad := hl
  cases hsrc : pad.sourceNode with
  | none =>
    cases hgain : pad.gainNode with
    | none =>
      simp only [stopSrcStep, stopGainStep, hsrc, hgain]
      rw [hl, pad_clear_eta pad hsrc hgain]
    | some gid =>
      simp only [stopSrcStep, stopGainStep, hsrc, hgain]
      show (setPadGain s.samples sid none).find? (fun p => p.id == sid) = _
      rw [setPadGain, find?_map_update s.samples sid (fun p => { p with gainNode := none })
        (fun p => rfl), hfind, pad_clear_eta_src pad hsrc]
      rfl
  | some nid =>
    cases hgain : pad.gainNode with
    | none =>
      simp only [stopSrcStep, stopGainStep, hsrc, hgain]
      show (setPadSource s.samples sid none).find? (fun p => p.id == sid) = _
      rw [setPadSource, find?_map_update s.samples sid (fun p => { p with sourceNode := none })
        (fun p => rfl), hfind, pad_clear_eta_gain pad hgain]
      rfl
    | some gid =>
      simp only [stopSrcStep, stopGainStep, hsrc, hgain]
      show (setPadGain (setPadSource s.samples sid none) sid none).find?
        (fun p => p.id == sid) = _
      rw [setPadGain, find?_map_update _ sid (fun p => { p with gainNode := none })
        (fun p => rfl), setPadSource, find?_map_update s.samples sid
        (fun p => { p with sourceNode := none }) (fun p => rfl), hfind]
      rfl

theorem stopSrcStep_gens (s : AppState) (sid : String) (pad : Pad) :
    (stopSrcStep s sid pad).gens =
      (match pad.sourceNode with
       | none => s.gens
       | some nid => stopAndDisconnect s.gens nid) := by
  unfold stopSrcStep
  cases pad.sourceNode <;> rfl

theorem stopGainStep_gens (s : AppState) (sid : String) (pad : Pad) :
    (stopGainStep s sid pad).gens = s.gens := by
  unfold stopGainStep
  cases pad.gainNode <;> rfl

theorem stopSample_spec (s : AppState) (sid : String) (pad : Pad)
    (hl : lookupPad s sid = some pad) :
    (stopSample s sid).gens =
      (match pad.sourceNode with
       | none => s.gens
       | some nid => stopAndDisconnect s.gens nid) ∧
    lookupPad (stopSample s sid) sid
      = some ({ pad with sourceNode := none, gainNode := none, isLooping := false } : Pad) := by
  have hsteps := stopSteps_lookup s sid pad hl
  constructor
  · simp only [stopSample, hl]
    rw [updateSampleSettingsCore_gens_stop _ sid ({ pad with sourceNode := none, gainNode := none } : Pad)
      hsteps rfl, stopGainStep_gens, stopSrcStep_gens]
  · simp only [stopSample, hl]
    rw [lookupPad_core _ sid stopSettings ({ pad with sourceNode := none, gainNode := none } : Pad) hsteps]
    rfl

theorem playVariantStep_frame (s : AppState) (pad : Pad) :
    frame (playVariantStep s pad) = frame s := by
  unfold playVariantStep
  cases hp : pad.payload with
  | synth f w a =>
    dsimp only
    cases hr : (playSynth s pad).2 with
    | none => exact playSynth_frame s pad
    | some pr => exact (updateSampleSettings_frame _ _ _).trans (playSynth_frame s pad)
  | sample ob df =>
    dsimp only
    cases hr : (playSample s pad).2 with
    | none => exact playSample_frame s pad
    | some pr => exact (updateSampleSettings_frame _ _ _).trans (playSample_frame s pad)

theorem cutoffStep_frame (s : AppState) (pad : Pad) :
    frame (cutoffStep s pad) = frame s := by
  unfold cutoffStep
  split
  · rfl
  · exact stopSample_frame _ _

theorem recordStep_recSeq (s : AppState) (pad : Pad) :
    (recordStep s pad).recordedSequence =
      (if s.isRecording then s.recordedSequence ++ [⟨pad.id, s.now - s.recordStartTime⟩]
       else s.recordedSequence) := by
  unfold recordStep
  split <;> rfl

theorem recordStep_isRecording (s : AppState) (pad : Pad) :
    (recordStep s pad).isRecording = s.isRecording := by
  unfold recordStep
  split <;> rfl

theorem recordStep_recStart (s : AppState) (pad : Pad) :
    (recordStep s pad).recordStartTime = s.recordStartTime := by
  unfold recordStep
  split <;> rfl

theorem playSoundSource_recSeq_found (s : AppState) (sid : String) (pad : Pad)
    (hl : lookupPad s sid = some pad) :
    (playSoundSource s sid).recordedSequence =
      (if s.isRecording then s.recordedSequence ++ [⟨pad.id, s.now - s.recordStartTime⟩]
       else s.recordedSequence) := by
  simp only [playSoundSource, hl]
  rw [frame_recordedSequence (playVariantStep_frame _ pad),
    frame_recordedSequence (cutoffStep_frame _ pad), recordStep_recSeq]
  rfl

theorem playSoundSource_recSeq_notfound (s : AppState) (sid : String)
    (hl : lookupPad s sid = none) :
    (playSoundSource s sid).recordedSequence = s.recordedSequence := by
  simp only [playSoundSource, hl]

theorem playSoundSource_rec_frame (s : AppState) (sid : String) :
    (playSoundSource s sid).isRecording = s.isRecording ∧
    (playSoundSource s sid).recordStartTime = s.recordStartTime := by
  cases hl : lookupPad s sid with
  | none => simp [playSoundSource, hl]
  | some pad =>
    simp only [playSoundSource, hl]
    constructor
    · rw [frame_isRecording (playVariantStep_frame _ pad),
        frame_isRecording (cutoffStep_frame _ pad), recordStep_isRecording]
      rfl
    · rw [frame_recordStartTime (playVariantStep_frame _ pad),
        frame_recordStartTime (cutoffStep_frame _ pad), recordStep_recStart]
      rfl

theorem stopSample_clears (s : AppState) (sid : String) (pad : Pad)
    (hl : lookupPad s sid = some pad) :
    ∀ p ∈ (stopSample s sid).samples, (p.id == sid) = true →
      p.sourceNode = none ∧ p.gainNode = none ∧ p.isLooping = false := by
  simp only [stopSample, hl]
  intro p hp hid
  rw [updateSampleSettingsCore_samples _ sid stopSettings _ (stopSteps_lookup s sid pad hl)] at hp
  obtain ⟨q, hq, hqid, hpq⟩ := mem_map_update _ sid (fun q => mergeSettings q stopSettings) p hp hid
  rw [hpq]
  exact ⟨rfl, rfl, rfl⟩

theorem stopSample_of_cleared (s : AppState) (sid : String)
    (h : ∀ p ∈ s.samples, (p.id == sid) = true →
      p.sourceNode = none ∧ p.gainNode = none ∧ p.isLooping = false) :
    stopSample s sid = s := by
  cases hl : lookupPad s sid with
  | none => simp only [stopSample, hl]
  | some pad =>
    have hfind : s.samples.find? (fun p => p.id == sid) = some pad := hl
    have hmem : pad ∈ s.samples := List.mem_of_find?_eq_some hfind
    have hid : (pad.id == sid) = true := List.find?_some (p := fun q : Pad => q.id == sid) hfind
    obtain ⟨h1, h2, h3⟩ := h pad hmem hid
    simp only [stopSample, hl]
    rw [show stopSrcStep s sid pad = s by simp [stopSrcStep, h1]]
    rw [show stopGainStep s sid pad = s by simp [stopGainStep, h2]]
    simp only [updateSampleSettingsCore, hl, h1, stopSettings]
    have hmap : s.samples.map (fun q => if q.id == sid then mergeSettings q stopSettings else q)
        = s.samples :=
      map_update_eq_self s.samples sid (fun q => mergeSettings q stopSettings)
        (fun p hp hpid => merge_stop_of_cleared p (h p hp hpid).1 (h p hp hpid).2.1 (h p hp hpid).2.2)
    simp only [stopSettings] at hmap
    rw [hmap]

theorem getLast?_mem_ev {α : Type} (l : List α) (x : α) (h : l.getLast? = some x) :
    x ∈ l := by
  obtain ⟨hne, hx⟩ := List.mem_getLast?_eq_getLast (x := x) h
  rw [hx]
  exact List.getLast_mem hne

theorem pairwise_time_le_getLast? (l : List RecordedEvent) (lastEv : RecordedEvent)
    (hs : l.Pairwise (fun a b => a.time ≤ b.time)) (hl : l.getLast? = some lastEv) :
    ∀ e ∈ l, e.time ≤ lastEv.time := by
  induction l with
  | nil => cases hl
  | cons a t ih =>
    cases t with
    | nil =>
      intro e he
      have h1 : e = a := by simpa using he
      have h2 : lastEv = a := by
        rw [List.getLast?_singleton] at hl
        exact (Option.some.inj hl).symm
      rw [h1, h2]
    | cons b t2 =>
      rw [List.getLast?_cons_cons] at hl
      have hpw := List.pairwise_cons.mp hs
      intro e he
      rcases List.mem_cons.mp he with he1 | hmem
      · rw [he1]
        exact hpw.1 lastEv (getLast?_mem_ev _ _ hl)
      · exact ih hpw.2 hl e hmem

theorem runTriggers_sorted_aux (calls : List (Int × String)) (s : AppState)
    (hsorted : calls.Pairwise (fun a b => a.1 ≤ b.1))
    (hseq : s.recordedSequence.Pairwise (fun a b => a.time ≤ b.time))
    (hbound : ∀ e ∈ s.recordedSequence, ∀ c ∈ calls, e.time + s.recordStartTime ≤ c.1) :
    ((runTriggers s calls).recordedSequence).Pairwise (fun a b => a.time ≤ b.time) := by
  induction calls generalizing s with
  | nil => exact hseq
  | cons c rest ih =>
    rw [show runTriggers s (c :: rest)
      = runTriggers (playSoundSource { s with now := c.1 } c.2) rest from rfl]
    apply ih
    · exact (List.pairwise_cons.mp hsorted).2
    · cases hl : lookupPad { s with now := c.1 } c.2 with
      | none =>
        rw [playSoundSource_recSeq_notfound _ _ hl]
        exact hseq
      | some pad =>
        rw [playSoundSource_recSeq_found _ _ pad hl]
        by_cases hrec : ({ s with now := c.1 } : AppState).isRecording = true
        · rw [if_pos hrec]
          apply List.pairwise_append.mpr
          refine ⟨hseq, List.pairwise_singleton _ _, ?_⟩
          intro e he b hb
          have hb1 : b = (⟨pad.id, c.1 - s.recordStartTime⟩ : RecordedEvent) := by
            simpa using hb
          rw [hb1]
          have hb2 := hbound e he c (List.mem_cons_self c rest)
          simp only []
          omega
        · rw [if_neg hrec]
          exact hseq
    · intro e he c2 hc2
      rw [(playSoundSource_rec_frame _ _).2]
      have hrel := (List.pairwise_cons.mp hsorted).1 c2 hc2
      cases hl : lookupPad { s with now := c.1 } c.2 with
      | none =>
        rw [playSoundSource_recSeq_notfound _ _ hl] at he
        exact hbound e he c2 (List.mem_cons_of_mem c hc2)
      | some pad =>
        rw [playSoundSource_recSeq_found _ _ pad hl] at he
        by_cases hrec : ({ s with now := c.1 } : AppState).isRecording = true
        · rw [if_pos hrec] at he
          rcases List.mem_append.mp he with hold | hnew
          · exact hbound e hold c2 (List.mem_cons_of_mem c hc2)
          · have he1 : e = (⟨pad.id, c.1 - s.recordStartTime⟩ : RecordedEvent) := by
              simpa using hnew
            rw [he1]
            simp only []
            omega
        · rw [if_neg hrec] at he
          exact hbound e he c2 (List.mem_cons_of_mem c hc2)

theorem recordStep_samples (s : AppState) (pad : Pad) :
    (recordStep s pad).samples = s.samples := by
  unfold recordStep
  split <;> rfl

theorem recordStep_gens (s : AppState) (pad : Pad) :
    (recordStep s pad).gens = s.gens := by
  unfold recordStep
  split <;> rfl

theorem recordStep_ctxTime (s : AppState) (pad : Pad) :
    (recordStep s pad).ctxTime = s.ctxTime := by
  unfold recordStep
  split <;> rfl

theorem recordStep_speed (s : AppState) (pad : Pad) :
    (recordStep s pad).speed = s.speed := by
  unfold recordStep
  split <;> rfl

theorem recordStep_nextNodeId (s : AppState) (pad : Pad) :
    (recordStep s pad).nextNodeId = s.nextNodeId := by
  unfold recordStep
  split <;> rfl

theorem recordStep_nextVoiceId (s : AppState) (pad : Pad) :
    (recordStep s pad).nextVoiceId = s.nextVoiceId := by
  unfold recordStep
  split <;> rfl

theorem playSample_spec (s : AppState) (pad : Pad) (buf : Nat) (df : Option String)
    (hpay : pad.payload = PadPayload.sample (some buf) df) :
    (playSample s pad).2 = some (s.nextNodeId, s.nextNodeId + 1) ∧
    (playSample s pad).1.gens = s.gens ++
      [{ nodeId := s.nextNodeId, padId := pad.id, voiceId := s.nextVoiceId
       , kind := GenKind.bufferSource buf pad.isLooping (s.speed / 100)
       , startAt := s.ctxTime, schedStopAt := none, stopped := false, connected := true }] ∧
    (playSample s pad).1.samples = s.samples := by
  simp [playSample, hpay]

theorem playVariantStep_sample (s : AppState) (pad : Pad) (buf : Nat) (df : Option String)
    (hpay : pad.payload = PadPayload.sample (some buf) df) :
    playVariantStep s pad = updateSampleSettings (playSample s pad).1 pad.id
      { sourceNode := some (some s.nextNodeId), gainNode := some (some (s.nextNodeId + 1)) } := by
  simp only [playVariantStep, hpay]
  rw [(playSample_spec s pad buf df hpay).1]

theorem updateSampleSettings_slot (s : AppState) (sid : String) (a b : Nat) :
    updateSampleSettings s sid { sourceNode := some (some a), gainNode := some (some b) }
      = updateSampleSettingsCore s sid { sourceNode := some (some a), gainNode := some (some b) } :=
  rfl

theorem updateSampleSettingsCore_slot_gens (s : AppState) (sid : String) (a b : Nat) (pad : Pad)
    (hl : lookupPad s sid = some pad) :
    (updateSampleSettingsCore s sid
      { sourceNode := some (some a), gainNode := some (some b) }).gens = s.gens := by
  simp only [updateSampleSettingsCore, hl]

theorem map_preserves_tag (gens : List GenNode) (f : GenNode → GenNode) (sid : String)
    (hf : ∀ g, (f g).padId = g.padId) (h : ∀ g ∈ gens, (g.padId == sid) = false) :
    ∀ g ∈ gens.map f, (g.padId == sid) = false := by
  intro g hg
  obtain ⟨q, hq, hfq⟩ := List.mem_map.mp hg
  rw [← hfq, hf]
  exact h q hq

theorem stopAndDisconnect_tags (gens : List GenNode) (nid : Nat) (sid : String)
    (h : ∀ g ∈ gens, (g.padId == sid) = false) :
    ∀ g ∈ stopAndDisconnect gens nid, (g.padId == sid) = false := by
  unfold stopAndDisconnect
  apply map_preserves_tag gens _ sid ?_ h
  intro g
  by_cases hh : (g.nodeId == nid) = true
  · rw [if_pos hh]
  · rw [if_neg hh]

theorem filter_live_nil (gens : List GenNode) (sid : String) (t : Int)
    (h : ∀ g ∈ gens, (g.padId == sid) = false) :
    gens.filter (fun g => g.padId == sid && g.liveAt t) = [] := by
  apply List.filter_eq_nil_iff.mpr
  intro g hg
  rw [h g hg]
  simp

theorem stopAndDisconnect_append (l1 l2 : List GenNode) (nid : Nat) :
    stopAndDisconnect (l1 ++ l2) nid = stopAndDisconnect l1 nid ++ stopAndDisconnect l2 nid := by
  unfold stopAndDisconnect
  exact List.map_append _ _ _

theorem trigger_mono_sample_spec (s : AppState) (sid : String) (pad : Pad) (buf : Nat)
    (df : Option String)
    (hl : lookupPad s sid = some pad)
    (hpay : pad.payload = PadPayload.sample (some buf) df)
    (hpoly : pad.isPolyphonic = false) :
    (playSoundSource s sid).gens =
      (match pad.sourceNode with
       | none => s.gens
       | some nid => stopAndDisconnect s.gens nid)
      ++ [{ nodeId := s.nextNodeId, padId := pad.id, voiceId := s.nextVoiceId
          , kind := GenKind.bufferSource buf pad.isLooping (s.speed / 100)
          , startAt := s.ctxTime, schedStopAt := none, stopped := false, connected := true }] ∧
    lookupPad (playSoundSource s sid) sid
      = some ({ pad with
          sourceNode := some s.nextNodeId
          gainNode := some (s.nextNodeId + 1)
          isLooping := false } : Pad) ∧
    (playSoundSource s sid).ctxTime = s.ctxTime := by
  have hid : (pad.id == sid) = true :=
    List.find?_some (p := fun q : Pad => q.id == sid) hl
  obtain rfl : pad.id = sid := eq_of_beq hid
  simp only [playSoundSource, hl]
  set G := recordStep (triggerFeedbackStep s pad) pad with hG
  have hlG : lookupPad G pad.id = some pad := by
    show G.samples.find? (fun p => p.id == pad.id) = some pad
    rw [hG, recordStep_samples]
    exact hl
  have hcut : cutoffStep G pad = stopSample G pad.id := by
    unfold cutoffStep
    rw [hpoly]
    rfl
  rw [hcut]
  have hstop := stopSample_spec G pad.id pad hlG
  have hS3n : (stopSample G pad.id).nextNodeId = s.nextNodeId := by
    rw [(stopSample_nextIds G pad.id).1, hG, recordStep_nextNodeId]
    rfl
  have hS3v : (stopSample G pad.id).nextVoiceId = s.nextVoiceId := by
    rw [(stopSample_nextIds G pad.id).2, hG, recordStep_nextVoiceId]
    rfl
  have hS3c : (stopSample G pad.id).ctxTime = s.ctxTime := by
    rw [frame_ctxTime (stopSample_frame G pad.id), hG, recordStep_ctxTime]
    rfl
  have hS3s : (stopSample G pad.id).speed = s.speed := by
    rw [frame_speed (stopSample_frame G pad.id), hG, recordStep_speed]
    rfl
  have hS3g : (stopSample G pad.id).gens =
      (match pad.sourceNode with
       | none => s.gens
       | some nid => stopAndDisconnect s.gens nid) := by
    rw [hstop.1]
    cases pad.sourceNode with
    | none =>
      rw [hG, recordStep_gens]
      rfl
    | some nid =>
      rw [hG, recordStep_gens]
      rfl
  have hplay := playSample_spec (stopSample G pad.id) pad buf df hpay
  have hlP : lookupPad (playSample (stopSample G pad.id) pad).1 pad.id
      = some ({ pad with sourceNode := none, gainNode := none, isLooping := false } : Pad) := by
    show (playSample (stopSample G pad.id) pad).1.samples.find? (fun p => p.id == pad.id) = _
    rw [hplay.2.2]
    exact hstop.2
  refine ⟨?_, ?_, ?_⟩
  · rw [playVariantStep_sample _ pad buf df hpay, updateSampleSettings_slot,
      updateSampleSettingsCore_slot_gens _ pad.id _ _ _ hlP, hplay.2.1, hS3g, hS3n, hS3v,
      hS3c, hS3s]
  · rw [playVariantStep_sample _ pad buf df hpay, updateSampleSettings_slot,
      lookupPad_core _ pad.id _ _ hlP, hS3n]
    rfl
  · rw [playVariantStep_sample _ pad buf df hpay, updateSampleSettings_slot,
      frame_ctxTime (updateSampleSettingsCore_frame _ _ _),
      frame_ctxTime (playSample_frame _ pad), hS3c]

/-- The loop record that stopRecording saves when the buffer is
non-empty with final event lastEv. -/
def finalizedLoop (s : AppState) (lastEv : RecordedEvent) : SavedLoop :=
  { id := "loop-" ++ toString s.now
  , name := "Loop " ++ toString (s.savedLoops.length + 1)
  , events := s.recordedSequence
  , duration := lastEv.time + 1000
  , createdAt := s.now }

/-! ### Claim theorems -/

/-- C1: stopping a playing loop does clear the current-loop marker, the
Playing state and the repeat flag, but it cancels no pending scheduled
trigger: the event timer scheduled by playLoop is still pending after
stop(), and firing it at its due time runs the pad trigger and creates
a live voice.  This evaluates the code at the failing input for the
claim that stop() ensures no not-yet-fired scheduled trigger fires. -/
theorem stopLoop_pending_trigger_still_fires :
    c1AfterStop.isPlaying = false ∧
    c1AfterStop.currentlyPlayingLoop = none ∧
    c1AfterStop.isLooping = false ∧
    (c1AfterStop.timers.filter TimerRec.isEventTrigger).length = 1 ∧
    (liveVoiceIds c1Fire kickPadId 0).length = 1 := by
  decide

/-- C2: playing the two-note synth pad and stopping the returned voice
(whose nominal handle is the first oscillator/gain pair) stops only the
first oscillator: the second oscillator of the group is not stopped and
is still audible 150 ms in, surviving until its own scheduled envelope
stop.  This evaluates the code at the failing input for the claim that
stopping the handle halts every oscillator in the group immediately. -/
theorem stopSample_leaves_second_oscillator_running :
    ((stopSample (playSoundSource stateA arpPadId) arpPadId).gens.map
        (fun g => (g.nodeId, g.stopped))) = [(0, true), (2, false)] ∧
    ((stopSample (playSoundSource stateA arpPadId) arpPadId).gens.filter
        (fun g => g.padId == arpPadId && g.liveAt 150)).length = 1 := by
  decide

/-- C3 counterexample: stopping a pad that has no current voice is not
a no-op on the pad's stored state: the synth pad of stateA has its slot
empty and its loop flag on, and stopSample changes the state (it clears
the loop flag). -/
theorem stop_without_voice_changes_state_cex :
    ¬ (stopSample stateA arpPadId = stateA) := by
  decide

/-- C4 counterexample: triggering the non-polyphonic two-note synth pad
twice in succession does not leave exactly one live voice: 150 ms in,
the second oscillator of the first voice is still audible alongside the
second voice, so two distinct voices are live. -/
theorem synth_retrigger_two_live_voices_cex :
    ¬ ((liveVoiceIds (playSoundSource (playSoundSource stateA arpPadId) arpPadId)
        arpPadId 150).length = 1) := by
  decide

/-- C5 counterexample: while recording, a trigger call on a pad with no
loaded buffer appends an event to the recording buffer even though no
voice is produced (no generator node is created). -/
theorem recording_appends_without_voice_cex :
    (playSoundSource stateD emptyPadId).recordedSequence = [⟨"c0", 250⟩] ∧
    (playSoundSource stateD emptyPadId).gens = [] := by
  decide

/-- C3 (amended): stopping a pad whose slots hold no voice raises no
error and leaves the state unchanged except that the pad's loop flag is
unconditionally set to false (so it is a true no-op only when the loop
flag is already off). -/
theorem stop_without_voice_clears_loop_flag_only (s : AppState) (sid : String) (pad : Pad)
    (hl : lookupPad s sid = some pad)
    (hall : ∀ p ∈ s.samples, (p.id == sid) = true → p.sourceNode = none ∧ p.gainNode = none) :
    stopSample s sid =
      { s with samples := (s.samples.map
          (fun p => if p.id == sid then ({ p with isLooping := false } : Pad) else p)) } := by
  have hfind : s.samples.find? (fun p => p.id == sid) = some pad := hl
  have hmem : pad ∈ s.samples := List.mem_of_find?_eq_some hfind
  have hid : (pad.id == sid) = true := List.find?_some (p := fun q : Pad => q.id == sid) hfind
  obtain ⟨h1, h2⟩ := hall pad hmem hid
  simp only [stopSample, hl]
  rw [show stopSrcStep s sid pad = s by simp [stopSrcStep, h1]]
  rw [show stopGainStep s sid pad = s by simp [stopGainStep, h2]]
  simp only [updateSampleSettingsCore, hl, h1, stopSettings]
  have hmap : s.samples.map (fun q => if q.id == sid then mergeSettings q stopSettings else q)
      = s.samples.map (fun p => if p.id == sid then ({ p with isLooping := false } : Pad) else p) := by
    apply List.map_congr_left
    intro p hp
    by_cases hpid : (p.id == sid) = true
    · rw [if_pos hpid, if_pos hpid]
      obtain ⟨hp1, hp2⟩ := hall p hp hpid
      cases p
      simp_all [mergeSettings, stopSettings]
    · rw [if_neg hpid, if_neg hpid]
  simp only [stopSettings] at hmap
  rw [hmap]

/-- C3 witness: the amended statement evaluated on the concrete synth
pad of stateA, which has empty slots and its loop flag on. -/
theorem stop_without_voice_clears_loop_flag_only_witness :
    lookupPad stateA arpPadId = some synthPadA ∧
    stopSample stateA arpPadId =
      { stateA with samples := (stateA.samples.map
          (fun p => if p.id == arpPadId then ({ p with isLooping := false } : Pad) else p)) } :=
  ⟨by decide, stop_without_voice_clears_loop_flag_only stateA arpPadId synthPadA
    (by decide) (by decide)⟩

/-- C5 (amended): while Recording, every trigger call on an existing
pad appends {padId, offset = now - origin} to the buffer in call order,
whether or not a voice is produced; in particular an empty pad
triggered through a direct trigger call (settings play, loop replay)
still appends.  Only the input layer keeps keyboard events away from
empty pads. -/
theorem recording_appends_every_trigger_call (s : AppState) (sid : String) (pad : Pad)
    (hl : lookupPad s sid = some pad) (hrec : s.isRecording = true) :
    (playSoundSource s sid).recordedSequence
      = s.recordedSequence ++ [⟨pad.id, s.now - s.recordStartTime⟩] := by
  rw [playSoundSource_recSeq_found s sid pad hl, if_pos hrec]

/-- C5 witness: the amended statement on the recording state stateD,
whose pad has no buffer, so the append happens with no voice. -/
theorem recording_appends_every_trigger_call_witness :
    lookupPad stateD emptyPadId = some emptyPadC ∧ stateD.isRecording = true ∧
    (playSoundSource stateD emptyPadId).recordedSequence
      = stateD.recordedSequence ++ [⟨emptyPadC.id, stateD.now - stateD.recordStartTime⟩] :=
  ⟨by decide, by decide,
   recording_appends_every_trigger_call stateD emptyPadId emptyPadC (by decide) (by decide)⟩

/-- C6: for any recording session (startRecording followed by a chain
of trigger calls at non-decreasing wall-clock instants), the captured
events' offsets are non-decreasing in capture order. -/
theorem recording_offsets_monotone (s : AppState) (calls : List (Int × String))
    (hsorted : calls.Pairwise (fun a b => a.1 ≤ b.1)) :
    ((runTriggers (startRecording s) calls).recordedSequence).Pairwise
      (fun a b => a.time ≤ b.time) := by
  apply runTriggers_sorted_aux calls (startRecording s) hsorted
  · exact List.Pairwise.nil
  · intro e he
    exact absurd he (List.not_mem_nil e)

/-- C6 witness: a concrete two-trigger session with the clock moving
from 5 to 7 ms. -/
theorem recording_offsets_monotone_witness :
    ([((5 : Int), "b0"), (7, "b0")] : List (Int × String)).Pairwise (fun a b => a.1 ≤ b.1) ∧
    ((runTriggers (startRecording stateB) [((5 : Int), "b0"), (7, "b0")]).recordedSequence).Pairwise
      (fun a b => a.time ≤ b.time) :=
  ⟨by decide, recording_offsets_monotone stateB [(5, "b0"), (7, "b0")] (by decide)⟩

/-- C7: finalizing a non-empty recording saves exactly one new loop
whose duration is the last event's offset plus the 1000 ms trailing
buffer; under the session invariants (offsets sorted and non-negative)
the duration therefore bounds every offset plus the trailing buffer and
is non-negative. -/
theorem finalized_loop_duration_bound (s : AppState) (lastEv : RecordedEvent)
    (hla : s.recordedSequence.getLast? = some lastEv)
    (hsorted : s.recordedSequence.Pairwise (fun a b => a.time ≤ b.time))
    (hnonneg : ∀ e ∈ s.recordedSequence, 0 ≤ e.time) :
    (stopRecording s).1.savedLoops = s.savedLoops ++ [finalizedLoop s lastEv] ∧
    (stopRecording s).2 = RecOutcome.saved s.recordedSequence.length ∧
    (finalizedLoop s lastEv).duration = lastEv.time + 1000 ∧
    (∀ e ∈ (finalizedLoop s lastEv).events, e.time + 1000 ≤ (finalizedLoop s lastEv).duration) ∧
    0 ≤ (finalizedLoop s lastEv).duration := by
  refine ⟨?_, ?_, rfl, ?_, ?_⟩
  · simp only [stopRecording, hla, finalizedLoop]
  · simp only [stopRecording, hla]
  · intro e he
    have h1 := pairwise_time_le_getLast? s.recordedSequence lastEv hsorted hla e he
    simp only [finalizedLoop]
    omega
  · have h2 := hnonneg lastEv (getLast?_mem_ev _ _ hla)
    simp only [finalizedLoop]
    omega

/-- C7 witness: finalizing a concrete two-event recording. -/
theorem finalized_loop_duration_bound_witness :
    stateE.recordedSequence.getLast? = some (⟨"b0", 40⟩ : RecordedEvent) ∧
    (stopRecording stateE).1.savedLoops
      = stateE.savedLoops ++ [finalizedLoop stateE (⟨"b0", 40⟩ : RecordedEvent)] ∧
    (finalizedLoop stateE (⟨"b0", 40⟩ : RecordedEvent)).duration = 1040 :=
  ⟨by decide,
   (finalized_loop_duration_bound stateE ⟨"b0", 40⟩ (by decide) (by decide) (by decide)).1,
   by decide⟩

/-- C8: startRecording immediately followed by stopRecording reports
the empty-recording outcome, creates no loop and leaves the saved-loops
collection unchanged. -/
theorem empty_recording_no_loop (s : AppState) :
    (stopRecording (startRecording s)).2 = RecOutcome.emptyRecording ∧
    (stopRecording (startRecording s)).1.savedLoops = s.savedLoops := by
  constructor <;> rfl

/-- C9: loading bytes that fail to decode leaves the whole state (in
particular the pad's existing buffer B and name) untouched and returns
the DecodeError outcome; on success the pad's buffer and display name
(file name without extension) are replaced. -/
theorem loadSample_decode_contract (decode : List Nat → Option Nat) (s : AppState)
    (fileName : String) (fileBytes : List Nat) (sid : String) (pad : Pad) (b : Nat)
    (df : Option String)
    (hl : lookupPad s sid = some pad)
    (hpay : pad.payload = PadPayload.sample (some b) df) :
    (decode fileBytes = none →
      loadSample decode s fileName fileBytes sid = (s, LoadOutcome.decodeError)) ∧
    (∀ buf, decode fileBytes = some buf →
      (loadSample decode s fileName fileBytes sid).2 = LoadOutcome.success ∧
      lookupPad (loadSample decode s fileName fileBytes sid).1 sid
        = some ({ pad with
                  payload := PadPayload.sample (some buf) df
                  name := stripExt fileName } : Pad)) := by
  have hfind : s.samples.find? (fun p => p.id == sid) = some pad := hl
  constructor
  · intro h
    simp only [loadSample, h]
  · intro buf h
    constructor
    · simp only [loadSample, h]
    · simp only [loadSample, h]
      show (s.samples.map (fun p => if p.id == sid then
          (match p.payload with
           | PadPayload.sample _ df2 =>
             { p with payload := PadPayload.sample (some buf) df2, name := stripExt fileName }
           | PadPayload.synth _ _ _ => p) else p)).find? (fun p => p.id == sid) = _
      rw [find?_map_update s.samples sid _ (fun p => by cases p.payload <;> rfl), hfind]
      rw [Option.map_some']
      rw [show (match pad.payload with
           | PadPayload.sample _ df2 =>
             ({ pad with
                payload := PadPayload.sample (some buf) df2
                name := stripExt fileName } : Pad)
           | PadPayload.synth _ _ _ => pad)
        = ({ pad with
             payload := PadPayload.sample (some buf) df
             name := stripExt fileName } : Pad) by rw [hpay]]

/-- C9 witness: a decode function that accepts only one byte string,
applied to the loaded sample pad of stateB with failing and succeeding
bytes. -/
theorem loadSample_decode_contract_witness :
    lookupPad stateB kickPadId = some samplePadB ∧
    loadSample decodeW stateB ("snare.wav") [7] kickPadId = (stateB, LoadOutcome.decodeError) ∧
    ((loadSample decodeW stateB ("snare.wav") [1, 2, 3] kickPadId).2 = LoadOutcome.success ∧
      lookupPad (loadSample decodeW stateB ("snare.wav") [1, 2, 3] kickPadId).1 kickPadId
        = some ({ samplePadB with
                  payload := PadPayload.sample (some 9) none
                  name := stripExt ("snare.wav") } : Pad)) :=
  ⟨by decide,
   (loadSample_decode_contract decodeW stateB ("snare.wav") [7] kickPadId samplePadB 7 none
      (by decide) (by decide)).1 (by decide),
   (loadSample_decode_contract decodeW stateB ("snare.wav") [1, 2, 3] kickPadId samplePadB 7 none
      (by decide) (by decide)).2 9 (by decide)⟩

/-- C10: stop is idempotent: a second stopSample on the same pad, from
any starting state, leaves exactly the state the first one produced (no
voice in the slots, no error). -/
theorem stopSample_idempotent (s : AppState) (sid : String) :
    stopSample (stopSample s sid) sid = stopSample s sid := by
  cases hl : lookupPad s sid with
  | none =>
    have h : stopSample s sid = s := by simp only [stopSample, hl]
    rw [h]
    exact h
  | some pad =>
    exact stopSample_of_cleared (stopSample s sid) sid (stopSample_clears s sid pad hl)

/-- C4 (amended): for a non-polyphonic sample-variant pad with a loaded
buffer and no prior generators, each new trigger stops and replaces the
slot occupant, and triggering it twice in succession leaves exactly one
live voice for that pad at every instant from the trigger time on.
(For synth-variant pads only the previous voice's nominal first
oscillator is cut, so the invariant fails there — see the
counterexample.) -/
theorem mono_sample_retrigger_single_live_voice (s : AppState) (sid : String) (pad : Pad)
    (buf : Nat) (df : Option String)
    (hl : lookupPad s sid = some pad)
    (hpay : pad.payload = PadPayload.sample (some buf) df)
    (hpoly : pad.isPolyphonic = false)
    (hclean : ∀ g ∈ s.gens, (g.padId == sid) = false) :
    ∀ t : Int, s.ctxTime ≤ t →
      (liveVoiceIds (playSoundSource (playSoundSource s sid) sid) sid t).length = 1 := by
  intro t ht
  have hid : (pad.id == sid) = true :=
    List.find?_some (p := fun q : Pad => q.id == sid) hl
  obtain rfl : pad.id = sid := eq_of_beq hid
  obtain ⟨hg1, hp1, hc1⟩ := trigger_mono_sample_spec s pad.id pad buf df hl hpay hpoly
  obtain ⟨hg2, hp2, hc2⟩ := trigger_mono_sample_spec (playSoundSource s pad.id) pad.id
    ({ pad with
       sourceNode := some s.nextNodeId
       gainNode := some (s.nextNodeId + 1)
       isLooping := false } : Pad) buf df hp1 hpay hpoly
  dsimp only at hg2
  rw [hg1] at hg2
  rw [stopAndDisconnect_append] at hg2
  have hAtags : ∀ g ∈ (match pad.sourceNode with
      | none => s.gens
      | some nid => stopAndDisconnect s.gens nid), (g.padId == pad.id) = false := by
    cases pad.sourceNode with
    | none => exact hclean
    | some nid => exact stopAndDisconnect_tags s.gens nid pad.id hclean
  unfold liveVoiceIds
  rw [hg2]
  rw [List.filter_append, List.filter_append]
  rw [filter_live_nil _ pad.id t (stopAndDisconnect_tags _ s.nextNodeId pad.id hAtags)]
  have hf2 : List.filter (fun g => g.padId == pad.id && g.liveAt t)
      (stopAndDisconnect
        [{ nodeId := s.nextNodeId, padId := pad.id, voiceId := s.nextVoiceId
         , kind := GenKind.bufferSource buf pad.isLooping (s.speed / 100)
         , startAt := s.ctxTime, schedStopAt := none, stopped := false, connected := true }]
        s.nextNodeId) = [] := by
    simp [stopAndDisconnect, GenNode.liveAt]
  rw [hf2]
  have hlive : GenNode.liveAt
      { nodeId := (playSoundSource s pad.id).nextNodeId, padId := pad.id
      , voiceId := (playSoundSource s pad.id).nextVoiceId
      , kind := GenKind.bufferSource buf false ((playSoundSource s pad.id).speed / 100)
      , startAt := (playSoundSource s pad.id).ctxTime, schedStopAt := none
      , stopped := false, connected := true } t = true := by
    simp [GenNode.liveAt, hc1]
    exact ht
  simp [hlive, hid]

/-- C4 witness: two successive triggers on the loaded, non-polyphonic
sample pad of stateB leave exactly one live voice at the trigger
instant. -/
theorem mono_sample_retrigger_single_live_voice_witness :
    lookupPad stateB kickPadId = some samplePadB ∧
    (liveVoiceIds (playSoundSource (playSoundSource stateB kickPadId) kickPadId)
      kickPadId 0).length = 1 :=
  ⟨by decide, mono_sample_retrigger_single_live_voice stateB kickPadId samplePadB 7 none
    (by decide) (by decide) (by decide) (by decide) 0 (by decide)⟩

end Looper
